import Mathlib

/- Shallow embedding of the project/task dashboard core (src/script.js):
   entity records, repository operations over the in-memory project
   collection with an explicit persistence slot, the derived queries
   feeding the dashboard, and the calendar month grid. Dates and clocks
   are modelled as integer timestamps; the JS Date calendar is modelled
   as the proleptic Gregorian calendar with day-of-week 0 = Sunday. -/

namespace Dashboard

/-- Task record (class Task, script.js lines 38-56). The constructor
argument list of the source is kept; `completed` is initialised from the
status and `createdAt` from the clock by `newTask` below. Due dates are
integer timestamps, `none` standing for a null or empty due date. -/
structure Task where
  id : String
  projectId : String
  name : String
  description : String
  status : String
  priority : String
  dueDate : Option Int
  assignee : String
  completed : Bool
  createdAt : Int
  deriving DecidableEq

/-- The Task constructor (script.js lines 39-50): sets
`completed = status === "Done"` and stamps `createdAt`. -/
def newTask (id projectId name description status priority : String)
    (dueDate : Option Int) (assignee : String) (now : Int) : Task :=
  { id := id
    projectId := projectId
    name := name
    description := description
    status := status
    priority := priority
    dueDate := dueDate
    assignee := assignee
    completed := status == "Done"
    createdAt := now }

/-- Task.isOverdue (script.js lines 52-55):
`if (!this.dueDate || this.completed) return false;
 return new Date(this.dueDate) < new Date();`
with `now` the current clock. -/
def Task.isOverdue (now : Int) (t : Task) : Bool :=
  match t.dueDate with
  | none => false
  | some d => if t.completed then false else decide (d < now)

/-- Project record (class Project, script.js lines 18-35). -/
structure Project where
  id : String
  name : String
  description : String
  status : String
  priority : String
  deadline : Option Int
  createdAt : Int
  tasks : List Task
  deriving DecidableEq

/-- Project.getProgress (script.js lines 30-34):
`if (this.tasks.length === 0) return 0;
 const completed = this.tasks.filter(t => t.status === "Done").length;
 return Math.round((completed / this.tasks.length) * 100);`
Math.round is floor(x + 1/2) (halves round toward positive infinity),
which is Mathlib round; the arithmetic is modelled exactly over the
rationals. -/
def Project.getProgress (p : Project) : Int :=
  if p.tasks.length = 0 then 0
  else round ((((p.tasks.filter (fun t => t.status == "Done")).length : ℚ) /
    (p.tasks.length : ℚ)) * 100)

/-- The formula as the spec words it: round(100 x doneCount / totalCount),
0 when the task count is 0 (spec sections 3 and 8). -/
def progressSpec (p : Project) : Int :=
  if p.tasks.length = 0 then 0
  else round ((100 * ((p.tasks.filter (fun t => t.status == "Done")).length : ℚ)) /
    (p.tasks.length : ℚ))

/-- State of the ProjectManager together with the persistence gateway:
the in-memory collection and the value last saved under the "projects"
key (none when nothing was ever saved). -/
structure PMState where
  projects : List Project
  storage : Option (List Project)
  deriving DecidableEq

/-- ProjectManager.saveProjects (script.js lines 69-71): persists the
whole collection. -/
def saveProjects (st : PMState) : PMState :=
  { st with storage := some st.projects }

/-- ProjectManager.getProject (script.js lines 95-97): first project
with a matching id. -/
def getProject (projects : List Project) (id : String) : Option Project :=
  projects.find? (fun p => p.id == id)

/-- ProjectManager.createProject (script.js lines 73-79); the fresh id
is the clock value rendered as a string. -/
def createProject (now : Int) (st : PMState)
    (name description status priority : String) (deadline : Option Int) :
    Project × PMState :=
  let project : Project :=
    { id := toString now
      name := name
      description := description
      status := status
      priority := priority
      deadline := deadline
      createdAt := now
      tasks := [] }
  (project, saveProjects { st with projects := st.projects ++ [project] })

/-- A partial-update payload for a project; `none` marks a field the
payload does not supply. (Object.assign overwrites exactly the supplied
fields.) -/
structure ProjectData where
  id : Option String := none
  name : Option String := none
  description : Option String := none
  status : Option String := none
  priority : Option String := none
  deadline : Option (Option Int) := none
  deriving DecidableEq

/-- Object.assign(project, data) for a project payload. -/
def assignProject (p : Project) (d : ProjectData) : Project :=
  { p with
    id := d.id.getD p.id
    name := d.name.getD p.name
    description := d.description.getD p.description
    status := d.status.getD p.status
    priority := d.priority.getD p.priority
    deadline := d.deadline.getD p.deadline }

/-- In-place mutation of the first project with the given id, as the
source does through the reference returned by Array.prototype.find. -/
def updateFirstProject (projects : List Project) (id : String)
    (f : Project → Project) : List Project :=
  match projects with
  | [] => []
  | p :: rest =>
    if p.id == id then f p :: rest else p :: updateFirstProject rest id f

/-- ProjectManager.updateProject (script.js lines 81-88): find by id,
Object.assign the payload onto the found project, save; when the id is
absent nothing happens and undefined (none) is returned. -/
def updateProject (st : PMState) (id : String) (d : ProjectData) :
    Option Project × PMState :=
  match getProject st.projects id with
  | none => (none, st)
  | some p =>
    let projects := updateFirstProject st.projects id (fun q => assignProject q d)
    (some (assignProject p d), saveProjects { st with projects := projects })

/-- ProjectManager.deleteProject (script.js lines 90-93):
`this.projects = this.projects.filter(p => p.id !== id)` then save. -/
def deleteProject (st : PMState) (id : String) : PMState :=
  saveProjects { st with projects := st.projects.filter (fun p => p.id != id) }

/-- A partial-update payload for a task; `none` marks a field the
payload does not supply. -/
structure TaskData where
  name : Option String := none
  description : Option String := none
  status : Option String := none
  priority : Option String := none
  dueDate : Option (Option Int) := none
  assignee : Option String := none
  completed : Option Bool := none
  deriving DecidableEq

/-- Object.assign(task, data) for a task payload. -/
def assignTask (t : Task) (d : TaskData) : Task :=
  { t with
    name := d.name.getD t.name
    description := d.description.getD t.description
    status := d.status.getD t.status
    priority := d.priority.getD t.priority
    dueDate := d.dueDate.getD t.dueDate
    assignee := d.assignee.getD t.assignee
    completed := d.completed.getD t.completed }

/-- In-place mutation of the first task with the given id inside a
project task list. -/
def updateFirstTask (tasks : List Task) (taskId : String)
    (f : Task → Task) : List Task :=
  match tasks with
  | [] => []
  | t :: rest =>
    if t.id == taskId then f t :: rest else t :: updateFirstTask rest taskId f

/-- TaskManager.createTask (script.js lines 119-128): the task is
constructed first; it is appended to the project task list and the
collection saved only when the project exists; the task object itself is
returned unconditionally. -/
def createTask (now : Int) (st : PMState)
    (projectId name description status priority : String)
    (dueDate : Option Int) (assignee : String) : Task × PMState :=
  let task := newTask (toString now) projectId name description status priority
    dueDate assignee now
  match getProject st.projects projectId with
  | none => (task, st)
  | some _ =>
    let projects := updateFirstProject st.projects projectId
      (fun p => { p with tasks := p.tasks ++ [task] })
    (task, saveProjects { st with projects := projects })

/-- TaskManager.updateTask (script.js lines 130-142): find project then
task, Object.assign the payload, then
`task.completed = data.status === "Done"` (the PAYLOAD status field:
undefined compares unequal to "Done"), save, return the task; null when
project or task is missing. -/
def updateTask (st : PMState) (projectId taskId : String) (d : TaskData) :
    Option Task × PMState :=
  match getProject st.projects projectId with
  | none => (none, st)
  | some p =>
    match p.tasks.find? (fun t => t.id == taskId) with
    | none => (none, st)
    | some t =>
      let mut1 := fun (u : Task) =>
        { assignTask u d with completed := d.status == some "Done" }
      let projects := updateFirstProject st.projects projectId (fun q =>
        { q with tasks := updateFirstTask q.tasks taskId mut1 })
      (some (mut1 t), saveProjects { st with projects := projects })

/-- TaskManager.deleteTask (script.js lines 144-150). -/
def deleteTask (st : PMState) (projectId taskId : String) : PMState :=
  match getProject st.projects projectId with
  | none => st
  | some _ =>
    let projects := updateFirstProject st.projects projectId (fun p =>
      { p with tasks := p.tasks.filter (fun t => t.id != taskId) })
    saveProjects { st with projects := projects }

/-- An element of the flattened task list: a copy of the task fields
annotated with the owning project name ({...t, projectName: p.name}). -/
structure AnnotatedTask where
  task : Task
  projectName : String
  deriving DecidableEq

/-- TaskManager.getAllTasks (script.js lines 157-161):
`projects.flatMap(p => p.tasks.map(t => ({ ...t, projectName: p.name })))`. -/
def getAllTasks (projects : List Project) : List AnnotatedTask :=
  projects.flatMap (fun p => p.tasks.map (fun t => ⟨t, p.name⟩))

/-- TaskManager.getTasksByStatus (script.js lines 163-165). -/
def getTasksByStatus (status : String) (projects : List Project) :
    List AnnotatedTask :=
  (getAllTasks projects).filter (fun a => a.task.status == status)

/-- TaskManager.getOverdueTasks (script.js lines 167-172): same
predicate as Task.isOverdue, inlined over the flattened list. -/
def getOverdueTasks (now : Int) (projects : List Project) :
    List AnnotatedTask :=
  (getAllTasks projects).filter (fun a =>
    match a.task.dueDate with
    | none => false
    | some d => if a.task.completed then false else decide (d < now))

/-- TaskManager.getPendingTasks (script.js lines 174-176). -/
def getPendingTasks (projects : List Project) : List AnnotatedTask :=
  (getAllTasks projects).filter (fun a => !a.task.completed)

/-- The record returned by TaskManager.getStats. -/
structure TaskStats where
  pending : Nat
  overdue : Nat
  completed : Nat
  toDo : Nat
  inProgress : Nat
  total : Nat
  deriving DecidableEq

/-- TaskManager.getStats (script.js lines 178-187). -/
def getStats (now : Int) (projects : List Project) : TaskStats :=
  let allTasks := getAllTasks projects
  { pending := (allTasks.filter (fun a => !a.task.completed)).length
    overdue := (getOverdueTasks now projects).length
    completed := (allTasks.filter (fun a => a.task.completed)).length
    toDo := (allTasks.filter (fun a => a.task.status == "To Do")).length
    inProgress := (allTasks.filter (fun a => a.task.status == "In Progress")).length
    total := allTasks.length }

/-- Gregorian leap-year test. -/
def isLeap (y : Int) : Bool :=
  y.emod 4 == 0 && (y.emod 100 != 0 || y.emod 400 == 0)

/-- Length of the Gregorian month with zero-based index m (0 = January,
..., 11 = December) of year y. -/
def monthLen (y : Int) (m : Nat) : Nat :=
  if m = 1 then (if isLeap y then 29 else 28)
  else if m = 3 ∨ m = 5 ∨ m = 8 ∨ m = 10 then 30
  else 31

/-- Days since 1970-01-01 of the proleptic Gregorian date (y, m, d) with
m in 1..12 (the civil-from-date computation used to model JS Date). -/
def daysFromCivil (y m d : Int) : Int :=
  let yA := if m ≤ 2 then y - 1 else y
  let era := yA.ediv 400
  let yoe := yA - era * 400
  let mp := (m + 9).emod 12
  let doy := (153 * mp + 2).ediv 5 + d - 1
  let doe := yoe * 365 + yoe.ediv 4 - yoe.ediv 100 + doy
  era * 146097 + doe - 719468

/-- The calendar (year, zero-based month) actually denoted by a
JS-style (year, monthIndex) pair after Date month normalization. -/
def resolveYM (y m : Int) : Int × Int := (y + m.ediv 12, m.emod 12)

/-- getDay() of new Date(y, m, d): 0 = Sunday (1970-01-01 maps to 4,
Thursday). The month index is normalized the way JS Date does. -/
def jsDow (y m d : Int) : Int :=
  (daysFromCivil (y + m.ediv 12) (m.emod 12 + 1) d + 4).emod 7

/-- getDate() of new Date(y, m + 1, 0), the number of days of the month
addressed by the JS-style (y, m) pair. -/
def jsMonthLen (y m : Int) : Nat :=
  monthLen (y + m.ediv 12) (m.emod 12).toNat

/-- One cell of the month grid, exactly as the source pushes it: the
month and year fields are copied raw (month - 1 or month + 1 at the
edges, with the year conditionally adjusted). -/
structure DayCell where
  day : Int
  month : Int
  year : Int
  isCurrentMonth : Bool
  deriving DecidableEq

/-- CalendarManager.getMonthData (script.js lines 255-298): leading
cells of the previous month back to the Sunday on or before the 1st,
the days of the month, then trailing cells of the next month up to 42
cells. The source loop for the leading cells runs i = firstDayOfWeek-1
down to 0 pushing day daysInPrevMonth - i; index k below is the k-th
pushed cell. -/
def getMonthData (year month : Int) : List DayCell :=
  let firstDayOfWeek : Nat := (jsDow year month 1).toNat
  let daysInMonth : Nat := jsMonthLen year month
  let daysInPrevMonth : Nat := jsMonthLen year (month - 1)
  (List.range firstDayOfWeek).map (fun k =>
    { day := (daysInPrevMonth : Int) - ((firstDayOfWeek : Int) - 1 - (k : Int))
      month := month - 1
      year := if month = 0 then year - 1 else year
      isCurrentMonth := false })
  ++ (List.range daysInMonth).map (fun k =>
    { day := (k : Int) + 1, month := month, year := year, isCurrentMonth := true })
  ++ (List.range (42 - (firstDayOfWeek + daysInMonth))).map (fun k =>
    { day := (k : Int) + 1
      month := month + 1
      year := if month = 11 then year + 1 else year
      isCurrentMonth := false })

/-- State reached from the empty state by creating one project (clock 1,
hence id "1") and one task with status Done under it (clock 2, id "2"). -/
def demoState : PMState :=
  (createTask 2 ((createProject 1 ⟨[], none⟩ "P" "" "Active" "High" none).2)
    "1" "T" "" "Done" "Low" none "").2

/-- demoState after a partial task update that does not supply the
status field. -/
def demoState2 : PMState :=
  (updateTask demoState "1" "2" { name := some "renamed" }).2

/-- A collection in which the project with id "1" holds no tasks while
the project with id "2" holds a task whose projectId field is "1" (such
collections are loadable verbatim through loadProjects and importData,
and are also reachable through updateProject payloads that rewrite a
project id). -/
def crossedState : PMState :=
  ⟨[⟨"1", "A", "", "Active", "Low", none, 0, []⟩,
    ⟨"2", "B", "", "Active", "Low", none, 0,
      [⟨"t", "1", "T", "", "To Do", "Low", none, "", false, 0⟩]⟩], none⟩

/-- A projectId-consistent one-project collection used as a concrete
instance of the cascade-delete theorem. -/
def consistentState : PMState :=
  ⟨[⟨"1", "A", "", "Active", "Low", none, 0,
      [⟨"t", "1", "T", "", "To Do", "Low", none, "", false, 0⟩]⟩], none⟩

/-- Project with one of three tasks Done. -/
def oneOfThreeDone : Project :=
  ⟨"p", "P", "", "Active", "Low", none, 0,
    [⟨"a", "p", "", "", "Done", "Low", none, "", true, 0⟩,
     ⟨"b", "p", "", "", "To Do", "Low", none, "", false, 0⟩,
     ⟨"c", "p", "", "", "To Do", "Low", none, "", false, 0⟩]⟩

/-- Project with two of three tasks Done. -/
def twoOfThreeDone : Project :=
  ⟨"p", "P", "", "Active", "Low", none, 0,
    [⟨"a", "p", "", "", "Done", "Low", none, "", true, 0⟩,
     ⟨"b", "p", "", "", "Done", "Low", none, "", true, 0⟩,
     ⟨"c", "p", "", "", "To Do", "Low", none, "", false, 0⟩]⟩

/- ------------------------------------------------------------------ -/
/- Helper lemmas                                                       -/
/- ------------------------------------------------------------------ -/

/-- Mapping a constant over a range is a replicate. -/
theorem range_map_const {β : Type} (n : Nat) (b : β) :
    (List.range n).map (fun _ => b) = List.replicate n b := by
  induction n with
  | zero => rfl
  | succ n ih =>
    rw [List.range_succ, List.map_append, ih]
    simp [List.replicate_succ']

/-- A list splits into the elements failing and satisfying a predicate. -/
theorem length_filter_not_add {α : Type} (l : List α) (p : α → Bool) :
    (l.filter (fun a => !p a)).length + (l.filter p).length = l.length := by
  induction l with
  | nil => rfl
  | cons a l ih =>
    cases h : p a <;> simp [List.filter_cons, h] <;> omega

/-- Every member of the filtered post-delete collection was a member
before and does not carry the deleted id. -/
theorem mem_deleteProject {st : PMState} {id : String} {p : Project}
    (hp : p ∈ (deleteProject st id).projects) :
    p ∈ st.projects ∧ p.id ≠ id := by
  simp only [deleteProject, saveProjects, List.mem_filter] at hp
  refine ⟨hp.1, ?_⟩
  simpa using hp.2

/-- Mapping a projection behind another map over a range collapses to a
replicate when the projection is constant on the image. -/
theorem range_map_eq_replicate {β : Type} (n : Nat) (f : Nat → β)
    (g : β → Bool) (b : Bool) (h : ∀ k, g (f k) = b) :
    ((List.range n).map f).map g = List.replicate n b := by
  rw [List.map_map]
  have hfun : (g ∘ f) = fun _ => b := funext (fun k => h k)
  rw [hfun, range_map_const]

/-- Membership in the flattened task list comes from a member project. -/
theorem mem_getAllTasks {projects : List Project} {a : AnnotatedTask}
    (ha : a ∈ getAllTasks projects) :
    ∃ p ∈ projects, ∃ t ∈ p.tasks, a = ⟨t, p.name⟩ := by
  simp only [getAllTasks, List.mem_flatMap, List.mem_map] at ha
  obtain ⟨p, hp, t, ht, rfl⟩ := ha
  exact ⟨p, hp, t, ht, rfl⟩

/- ------------------------------------------------------------------ -/
/- Claim theorems                                                      -/
/- ------------------------------------------------------------------ -/

/-- Claim C1 (code bug witness). The claim states that after any
updateTask the completed field equals (status == "Done") for the
effective status, even when the payload omits status. The code instead
sets completed from the PAYLOAD status (data.status === "Done"), so a
partial update without a status field forces completed to false: in the
state with one task of status "Done", a rename-only update returns the
task with status still "Done" but completed false, violating the
completed-tracks-status invariant the spec declares. -/
theorem updateTask_omitted_status_clears_completed :
    ((updateTask demoState "1" "2" { name := some "renamed" }).1).map
      (fun t => (t.status, t.completed)) = some ("Done", false) := by decide

/-- Claim C2 (counterexample). With an empty collection the projectId
"p1" matches no project, yet createTask still returns the freshly
constructed Task object; the claim says no value is produced. -/
theorem createTask_missing_project_returns_value :
    (createTask 5 ⟨[], none⟩ "p1" "T" "" "To Do" "Low" none "").1 =
      ⟨"5", "p1", "T", "", "To Do", "Low", none, "", false, 5⟩ := by decide

/-- Claim C2 (amended): when the projectId matches no project, no
project task list changes and nothing is persisted (the whole state is
returned untouched), but the operation still returns the constructed
Task. -/
theorem createTask_missing_project_detached (now : Int) (st : PMState)
    (pid nm ds s pr : String) (dd : Option Int) (asg : String)
    (h : ∀ p ∈ st.projects, p.id ≠ pid) :
    (createTask now st pid nm ds s pr dd asg).2 = st ∧
    (createTask now st pid nm ds s pr dd asg).1 =
      newTask (toString now) pid nm ds s pr dd asg now := by
  have hf : getProject st.projects pid = none := by
    unfold getProject
    exact List.find?_eq_none.mpr (fun p hp => by simpa using h p hp)
  constructor <;> simp [createTask, hf]

/-- Claim C2 (witness for the amended theorem at a concrete input). -/
theorem createTask_missing_project_detached_witness :
    (∀ p ∈ (⟨[], none⟩ : PMState).projects, p.id ≠ "p1") ∧
    ((createTask 5 ⟨[], none⟩ "p1" "T" "" "To Do" "Low" none "").2 =
        (⟨[], none⟩ : PMState) ∧
      (createTask 5 ⟨[], none⟩ "p1" "T" "" "To Do" "Low" none "").1 =
        newTask (toString (5 : Int)) "p1" "T" "" "To Do" "Low" none "" 5) :=
  ⟨by decide,
    createTask_missing_project_detached 5 ⟨[], none⟩ "p1" "T" "" "To Do" "Low"
      none "" (by decide)⟩

/-- Claim C3 (code bug witness). For January 2026 the first (leading)
cell is pushed with month index -1 and year 2025; -1 is not a valid
month index, and normalized the way JS Date normalizes (year, month)
pairs it denotes December 2024, one year before the actual date of the
cell (December 28, 2025). Symmetrically the last trailing cell of
December 2026 carries month index 12 with year 2027, which denotes
January 2028 instead of the actual January 2027. -/
theorem getMonthData_boundary_month_index :
    (getMonthData 2026 0).head? = some ⟨28, -1, 2025, false⟩ ∧
    resolveYM 2025 (-1) = (2024, 11) ∧
    (getMonthData 2026 11).getLast? = some ⟨9, 12, 2027, false⟩ ∧
    resolveYM 2027 12 = (2028, 0) := by decide

/-- Claim C4 (counterexample). In the reachable state demoState2 (a
Done task renamed through a status-less payload) the stats field
completed is 0 while exactly one flattened task has status "Done": the
completed bucket does not count exact status matches. -/
theorem getStats_completed_differs_from_status_count :
    (getStats 0 demoState2.projects).completed = 0 ∧
    ((getAllTasks demoState2.projects).filter
      (fun a => a.task.status == "Done")).length = 1 := by decide

/-- Claim C4 (amended): over the flattened task list, toDo and
inProgress count exact status matches, completed counts tasks whose
completed FIELD is true (not tasks whose status is "Done"), pending
counts tasks whose completed field is false, overdue is the length of
the overdue list, and total is the count of all tasks across all
projects. -/
theorem getStats_fields_spec (now : Int) (ps : List Project) :
    (getStats now ps).toDo =
      ((getAllTasks ps).filter (fun a => a.task.status == "To Do")).length ∧
    (getStats now ps).inProgress =
      ((getAllTasks ps).filter (fun a => a.task.status == "In Progress")).length ∧
    (getStats now ps).completed =
      ((getAllTasks ps).filter (fun a => a.task.completed)).length ∧
    (getStats now ps).pending =
      ((getAllTasks ps).filter (fun a => !a.task.completed)).length ∧
    (getStats now ps).overdue = (getOverdueTasks now ps).length ∧
    (getStats now ps).total = (ps.map (fun p => p.tasks.length)).sum := by
  refine ⟨rfl, rfl, rfl, rfl, rfl, ?_⟩
  simp [getStats, getAllTasks, Function.comp_def]

/-- Claim C5: Project.getProgress is 0 on an empty task list and
otherwise the half-up rounding of 100 x doneCount / totalCount, exactly
as the spec words it; at one of three tasks Done it yields 33 and at
two of three 67. -/
theorem getProgress_matches_spec :
    (∀ p : Project, p.getProgress = progressSpec p) ∧
    oneOfThreeDone.getProgress = 33 ∧ twoOfThreeDone.getProgress = 67 := by
  refine ⟨fun p => ?_, ?_, ?_⟩
  · unfold Project.getProgress progressSpec
    split
    · rfl
    · have h : (((p.tasks.filter (fun t => t.status == "Done")).length : ℚ) /
          (p.tasks.length : ℚ)) * 100 =
          (100 * ((p.tasks.filter (fun t => t.status == "Done")).length : ℚ)) /
          (p.tasks.length : ℚ) := by ring
      rw [h]
  · have h1 : (oneOfThreeDone.tasks.filter
        (fun t => t.status == "Done")).length = 1 := by decide
    have h2 : oneOfThreeDone.tasks.length = 3 := by decide
    rw [Project.getProgress, h1, h2]
    norm_num [round_eq]
  · have h1 : (twoOfThreeDone.tasks.filter
        (fun t => t.status == "Done")).length = 2 := by decide
    have h2 : twoOfThreeDone.tasks.length = 3 := by decide
    rw [Project.getProgress, h1, h2]
    norm_num [round_eq]

/-- Claim C6: for any year and any month index 0..11 the grid has
exactly 42 cells and its isCurrentMonth flags are a single contiguous
block of daysInMonth trues, preceded by exactly firstDayOfWeek (the
getDay value of the 1st, 0 = Sunday) falses and followed by the
remaining falses; the month length is between 28 and 31 and the leading
count at most 6, so the true block is nonempty and both borders stay
inside the 42 cells. -/
theorem getMonthData_grid_shape (year month : Int)
    (h0 : 0 ≤ month) (h1 : month ≤ 11) :
    (getMonthData year month).length = 42 ∧
    (getMonthData year month).map (fun c => c.isCurrentMonth) =
      List.replicate (jsDow year month 1).toNat false ++
        (List.replicate (jsMonthLen year month) true ++
          List.replicate
            (42 - ((jsDow year month 1).toNat + jsMonthLen year month)) false) ∧
    28 ≤ jsMonthLen year month ∧ jsMonthLen year month ≤ 31 ∧
    (jsDow year month 1).toNat ≤ 6 := by
  have hnn : 0 ≤ jsDow year month 1 := by
    unfold jsDow
    exact Int.emod_nonneg _ (by norm_num)
  have hlt : jsDow year month 1 < 7 := by
    unfold jsDow
    exact Int.emod_lt_of_pos _ (by norm_num)
  have hdow : (jsDow year month 1).toNat ≤ 6 := by omega
  have hml : 28 ≤ jsMonthLen year month ∧ jsMonthLen year month ≤ 31 := by
    unfold jsMonthLen monthLen
    split_ifs <;> omega
  refine ⟨?_, ?_, hml.1, hml.2, hdow⟩
  · unfold getMonthData
    simp only [List.length_append, List.length_map, List.length_range]
    omega
  · unfold getMonthData
    simp only [List.map_append]
    rw [range_map_eq_replicate _ _ _ false (fun _ => rfl),
      range_map_eq_replicate _ _ _ true (fun _ => rfl),
      range_map_eq_replicate _ _ _ false (fun _ => rfl), List.append_assoc]

/-- Claim C6 (witness at January 2025). -/
theorem getMonthData_grid_shape_witness :
    (0 ≤ (0 : Int) ∧ (0 : Int) ≤ 11) ∧
    ((getMonthData 2025 0).length = 42 ∧
      (getMonthData 2025 0).map (fun c => c.isCurrentMonth) =
        List.replicate (jsDow 2025 0 1).toNat false ++
          (List.replicate (jsMonthLen 2025 0) true ++
            List.replicate
              (42 - ((jsDow 2025 0 1).toNat + jsMonthLen 2025 0)) false) ∧
      28 ≤ jsMonthLen 2025 0 ∧ jsMonthLen 2025 0 ≤ 31 ∧
      (jsDow 2025 0 1).toNat ≤ 6) :=
  ⟨⟨by norm_num, by norm_num⟩,
    getMonthData_grid_shape 2025 0 (by norm_num) (by norm_num)⟩

/-- Claim C7 (counterexample). In crossedState the id "1" is present in
the collection, yet after deleteProject "1" the flattened task list
still contains a task whose projectId field is "1" (it lives inside the
surviving project "2"): the claim that no task with the deleted
projectId appears in listAll afterwards fails. -/
theorem deleteProject_foreign_projectId_survives :
    (∃ p ∈ crossedState.projects, p.id = "1") ∧
    ((getAllTasks (deleteProject crossedState "1").projects).filter
      (fun a => a.task.projectId == "1")).length = 1 := by decide

/-- Claim C7 (amended): deleting an id removes every project carrying
that id together with the tasks they contain; provided every task sits
in the project its projectId names (as in every collection the
repository itself builds), no project with the deleted id and no task
with the deleted projectId remains in the collection, in the flattened
task list, or in the overdue list at any evaluation time. -/
theorem deleteProject_cascade (st : PMState) (id : String)
    (hcons : ∀ p ∈ st.projects, ∀ t ∈ p.tasks, t.projectId = p.id) :
    (∀ p ∈ (deleteProject st id).projects, p.id ≠ id) ∧
    (∀ a ∈ getAllTasks (deleteProject st id).projects,
      a.task.projectId ≠ id) ∧
    (∀ now : Int, ∀ a ∈ getOverdueTasks now (deleteProject st id).projects,
      a.task.projectId ≠ id) := by
  have h2 : ∀ a ∈ getAllTasks (deleteProject st id).projects,
      a.task.projectId ≠ id := by
    intro a ha
    obtain ⟨p, hp, t, ht, rfl⟩ := mem_getAllTasks ha
    obtain ⟨hmem, hne⟩ := mem_deleteProject hp
    have := hcons p hmem t ht
    simpa [this] using hne
  refine ⟨fun p hp => (mem_deleteProject hp).2, h2, fun now a ha => ?_⟩
  unfold getOverdueTasks at ha
  exact h2 a (List.mem_filter.mp ha).1

/-- Claim C7 (witness for the cascade theorem at a concrete consistent
state). -/
theorem deleteProject_cascade_witness :
    (∀ p ∈ consistentState.projects, ∀ t ∈ p.tasks, t.projectId = p.id) ∧
    (∀ a ∈ getAllTasks (deleteProject consistentState "1").projects,
      a.task.projectId ≠ "1") :=
  ⟨by decide, (deleteProject_cascade consistentState "1" (by decide)).2.1⟩

/-- Claim C8: Task.isOverdue is true exactly when the due date is set
and strictly before the evaluation time and the task is not completed;
in particular a completed task is never overdue regardless of its due
date (the right-hand side is false whenever completed is true). -/
theorem isOverdue_characterization (now : Int) (t : Task) :
    Task.isOverdue now t = true ↔
      (∃ d, t.dueDate = some d ∧ d < now) ∧ t.completed = false := by
  rcases ht : t.dueDate with _ | d
  · simp [Task.isOverdue, ht]
  · cases hc : t.completed <;> simp [Task.isOverdue, ht, hc]

/-- Claim C9: updating a project id that matches nothing returns the
absent value and leaves the whole state (collection and persisted
value) untouched; the operation is total, so no exception escapes. -/
theorem updateProject_not_found (st : PMState) (id : String)
    (d : ProjectData) (h : ∀ p ∈ st.projects, p.id ≠ id) :
    (updateProject st id d).1 = none ∧ (updateProject st id d).2 = st := by
  have hf : getProject st.projects id = none := by
    unfold getProject
    exact List.find?_eq_none.mpr (fun p hp => by simpa using h p hp)
  constructor <;> simp [updateProject, hf]

/-- Claim C9 (witness at the empty collection). -/
theorem updateProject_not_found_witness :
    (∀ p ∈ (⟨[], none⟩ : PMState).projects, p.id ≠ "x") ∧
    ((updateProject ⟨[], none⟩ "x" {}).1 = none ∧
      (updateProject ⟨[], none⟩ "x" {}).2 = (⟨[], none⟩ : PMState)) :=
  ⟨by decide, updateProject_not_found ⟨[], none⟩ "x" {} (by decide)⟩

/-- Claim C10: getStats counts every flattened task in exactly one of
the pending bucket (completed field false) and the completed bucket
(completed field true), so pending + completed = total, independently
of whether the completed field agrees with the status field. -/
theorem getStats_pending_completed_partition (now : Int)
    (ps : List Project) :
    (getStats now ps).pending + (getStats now ps).completed =
      (getStats now ps).total := by
  simpa [getStats] using
    length_filter_not_add (getAllTasks ps) (fun a => a.task.completed)

end Dashboard
